import Mathlib

/-!
Shallow embedding of the Authenticated Inference & Persistence Service
(`src/backend/app.py`, `src/backend/database.py`) and proofs about the
frozen claims.

Modelling conventions:
* Python exceptions become the `Err` inductive; fallible operations return
  `Except Err α` together with the post-state.
* The MySQL database is a pure record `DBData`; the global process state
  (connection pool variable, salt / uuid sources, wall clock) is `Sys`.
* `DECIMAL(p, s)` columns of the schema created by `init_db` round the
  stored value to `s` fractional digits; this is `decRound`.  Timestamps
  are naturals drawn from a monotone clock.
* `str(uuid.uuid4())` is modelled as a fresh natural number drawn from a
  monotone counter (freshness is exactly the property uuid4 supplies).
* bcrypt's raw key-derivation core is an opaque parameter
  `digest : String → String → String`; the hash format handling and the
  `ValueError` raised by `bcrypt.checkpw` on a malformed hash are concrete.
-/

namespace LoanService

/-- Python-level errors crossing the modelled functions.
`http` is FastAPI's `HTTPException(status_code, detail)`;
`attributeError` is what `None.get_connection()` raises;
`connectionError` is Python's builtin `ConnectionError` (listed so that
statements can compare against it; the embedded code never raises it);
`valueError` is bcrypt's `ValueError`; `integrityError` is MySQL's
duplicate-key error from the UNIQUE columns of the `users` table. -/
inductive Err where
  | http (status : Nat) (detail : String)
  | attributeError
  | connectionError
  | valueError (msg : String)
  | integrityError
deriving DecidableEq, Repr

/-! ### JWT (PyJWT, HS256) -/

/-- Decoded claim set of a token: `{"sub": sub, "exp": exp}` with the
expiry as an absolute time in seconds. -/
structure Payload where
  sub : String
  exp : Nat
deriving DecidableEq, Repr

/-- Model of the HMAC-SHA256 tag over the serialized payload: verification
only ever recomputes and compares, which this models exactly. -/
def signTag (key : String) (p : Payload) : String :=
  "HS256|" ++ key ++ "|" ++ p.sub ++ "|" ++ toString p.exp

/-- A serialized token: payload plus signature field. -/
structure Jwt where
  payload : Payload
  sig : String
deriving DecidableEq, Repr

/-- Model of `jwt.encode(payload, key, algorithm="HS256")`. -/
def jwtEncode (p : Payload) (key : String) : Jwt :=
  ⟨p, signTag key p⟩

/-- Errors of `jwt.decode`: `ExpiredSignatureError <: PyJWTError`. -/
inductive JwtError where
  | expiredSignatureError
  | pyJWTError
deriving DecidableEq, Repr

/-- Model of `jwt.decode(token, key, algorithms=["HS256"])` at current time `now`
(seconds).  PyJWT verifies the signature first, then the `exp` claim; with
zero leeway the token is expired iff `exp <= now`. -/
def jwtDecode (t : Jwt) (key : String) (now : Nat) : Except JwtError Payload :=
  if t.sig ≠ signTag key t.payload then .error .pyJWTError
  else if t.payload.exp ≤ now then .error .expiredSignatureError
  else .ok t.payload

/-! ### app.py JWT settings and helpers -/

def SECRET_KEY : String := "your-secret-key-change-in-production"

def ACCESS_TOKEN_EXPIRE_MINUTES : Nat := 1440

/-- Token from `create_access_token(data={"sub": sub})` issued at time `now`:
expiry is `utcnow + timedelta(minutes=ACCESS_TOKEN_EXPIRE_MINUTES)`. -/
def create_access_token (sub : String) (now : Nat) : Jwt :=
  jwtEncode ⟨sub, now + ACCESS_TOKEN_EXPIRE_MINUTES * 60⟩ SECRET_KEY

/-- Function `decode_token` from app.py: maps `ExpiredSignatureError` to
`401 "Token expired"` and any other `PyJWTError` to `401 "Invalid token"`. -/
def decode_token (t : Jwt) (now : Nat) : Except Err Payload :=
  match jwtDecode t SECRET_KEY now with
  | .ok p => .ok p
  | .error .expiredSignatureError => .error (.http 401 "Token expired")
  | .error .pyJWTError => .error (.http 401 "Invalid token")

/-! ### bcrypt (hash_password / verify_password) -/

/-- The `$2b$` modular-crypt header (cost 12) that every bcrypt hash
produced by `bcrypt.hashpw` starts with. -/
def hashHeader : String := "$2b$12$"

/-- Model of `bcrypt.hashpw(password, salt)` with the key-derivation core kept
opaque as `digest`. -/
def hashpw (digest : String → String → String) (password salt : String) : String :=
  hashHeader ++ salt ++ "|" ++ digest password salt

/-- Whether a string carries the bcrypt hash format expected by
`bcrypt.checkpw`; anything else makes its salt parsing fail. -/
def isBcryptHash (s : String) : Bool :=
  hashHeader.data.isPrefixOf s.data

/-- Salt component recovered from a well-formed hash string. -/
def saltOfHash (s : String) : String :=
  ⟨(s.data.drop 7).takeWhile (fun c => c != '|')⟩

/-- Model of `bcrypt.checkpw(password, hashed)`: re-derives with the salt embedded
in `hashed` and compares; raises `ValueError("Invalid salt")` when
`hashed` is not in bcrypt format. -/
def checkpw (digest : String → String → String) (password hashed : String) :
    Except Err Bool :=
  if isBcryptHash hashed then
    .ok (hashpw digest password (saltOfHash hashed) == hashed)
  else
    .error (.valueError "Invalid salt")

/-! ### Database rows and state -/

/-- Row of the `users` table. -/
structure UserRow where
  id : Nat
  username : String
  email : String
  hashed_password : String
  created_at : Nat
deriving DecidableEq, Repr

/-- The eleven scoring features of a request (everything except `name`),
in the fixed order `meta["all_feature_columns"]` declares. -/
structure Features where
  annual_income : Rat
  debt_to_income_ratio : Rat
  credit_score : Rat
  loan_amount : Rat
  interest_rate : Rat
  gender : String
  marital_status : String
  education_level : String
  employment_status : String
  loan_purpose : String
  grade_subgrade : String
deriving DecidableEq, Repr

/-- Row of the `predictions` table (schema from `init_db`).  `name` is
nullable; `batch_id` is NULL for single predictions.  The `DECIMAL`
columns hold values already rounded to the declared scale. -/
structure PredRow where
  id : Nat
  user_id : Nat
  name : Option String
  annual_income : Rat
  debt_to_income_ratio : Rat
  credit_score : Rat
  loan_amount : Rat
  interest_rate : Rat
  gender : String
  marital_status : String
  education_level : String
  employment_status : String
  loan_purpose : String
  grade_subgrade : String
  prediction : Int
  probability : Rat
  prediction_type : String
  batch_id : Option Nat
  created_at : Nat
deriving DecidableEq, Repr

/-- The MySQL database contents plus its AUTO_INCREMENT counters and the
server clock feeding `CURRENT_TIMESTAMP`. -/
structure DBData where
  users : List UserRow
  predictions : List PredRow
  nextUserId : Nat
  nextPredId : Nat
  clock : Nat
deriving DecidableEq, Repr

/-- Process-wide state: the `connection_pool` global (`none` = not yet
created), the number of free pooled connections, whether the MySQL server
is reachable, the database, and the sources for `bcrypt.gensalt()`,
`uuid.uuid4()` and `datetime.utcnow()`. -/
structure Sys where
  pool : Option Unit
  free : Nat
  reachable : Bool
  data : DBData
  saltCtr : Nat
  uuidCtr : Nat
  now : Nat
deriving DecidableEq, Repr

/-- Function `init_connection_pool`: creates the pool when MySQL is reachable;
on `mysql.connector.Error` it only prints, leaving the global `None`. -/
def init_connection_pool (s : Sys) : Sys :=
  if s.reachable then { s with pool := some () } else s

/-- The `get_db` context manager: lazily initializes the pool (an acquisition
while the global is still `None` then raises `AttributeError`), acquires a
connection, runs the transaction body `op`, commits its data on success or
rolls back on any exception, and in both cases closes (releases) the
connection. -/
def get_db {α : Type} (op : DBData → Except Err (α × DBData)) (s : Sys) :
    Except Err α × Sys :=
  let s1 := if s.pool = none then init_connection_pool s else s
  match s1.pool with
  | none => (.error .attributeError, s1)
  | some _ =>
    let acq := { s1 with free := s1.free - 1 }
    match op acq.data with
    | .ok (a, d) => (.ok a, { acq with data := d, free := acq.free + 1 })
    | .error e => (.error e, { acq with free := acq.free + 1 })

/-- Rounding performed by a `DECIMAL(_, s)` column with `scale = 10 ^ s`:
round half away from zero, which on the service's non-negative inputs
equals `⌊q·scale + 1/2⌋ / scale`. -/
def decRound (scale : Nat) (q : Rat) : Rat :=
  ((Int.floor (q * (scale : Rat) + 1/2) : Int) : Rat) / (scale : Rat)

/-! ### database.py user functions -/

/-- Model of `bcrypt.gensalt()` as a fresh salt string per call. -/
def gensaltStr (k : Nat) : String := "salt" ++ toString k

/-- Function `hash_password`: bcrypt hash with a fresh salt. -/
def hash_password (digest : String → String → String) (s : Sys)
    (password : String) : String × Sys :=
  (hashpw digest password (gensaltStr s.saltCtr), { s with saltCtr := s.saltCtr + 1 })

/-- Function `verify_password`: delegates to `bcrypt.checkpw`, catching nothing. -/
def verify_password (digest : String → String → String)
    (plain_password hashed_password : String) : Except Err Bool :=
  checkpw digest plain_password hashed_password

/-- Dict returned by `create_user` (no `created_at` key). -/
structure UserDict where
  id : Nat
  username : String
  email : String
  hashed_password : String
deriving DecidableEq, Repr

/-- Function `create_user`: hashes the password, then inserts one row inside a
`get_db` scope.  The UNIQUE constraints on `username` and `email` make a
duplicate insert raise an integrity error instead of writing. -/
def create_user (digest : String → String → String) (s : Sys)
    (username email password : String) : Except Err UserDict × Sys :=
  let hp := hash_password digest s password
  get_db (fun d =>
    if d.users.any (fun u => u.username == username || u.email == email) then
      .error .integrityError
    else
      let row : UserRow := ⟨d.nextUserId, username, email, hp.1, d.clock⟩
      .ok (⟨row.id, username, email, hp.1⟩,
        { d with users := d.users ++ [row],
                 nextUserId := d.nextUserId + 1,
                 clock := d.clock + 1 })) hp.2

/-- Function `get_user_by_username`: `SELECT * FROM users WHERE username = %s`,
`fetchone`. -/
def get_user_by_username (s : Sys) (username : String) :
    Except Err (Option UserRow) × Sys :=
  get_db (fun d => .ok (d.users.find? (fun u => u.username == username), d)) s

/-- Function `get_user_by_email`: `SELECT * FROM users WHERE email = %s`,
`fetchone`. -/
def get_user_by_email (s : Sys) (email : String) :
    Except Err (Option UserRow) × Sys :=
  get_db (fun d => .ok (d.users.find? (fun u => u.email == email), d)) s

/-! ### database.py prediction functions -/

/-- The row `create_prediction` inserts: values rounded per the schema's
DECIMAL scales (`annual_income` 2, `debt_to_income_ratio` 4,
`credit_score` 2, `loan_amount` 2, `interest_rate` 2, `probability` 4),
id from AUTO_INCREMENT, timestamp from `CURRENT_TIMESTAMP`. -/
def insertedPredRow (d : DBData) (user_id : Nat) (nm : Option String)
    (f : Features) (prediction : Int) (probability : Rat)
    (prediction_type : String) (batch_id : Option Nat) : PredRow :=
  { id := d.nextPredId
    user_id := user_id
    name := nm
    annual_income := decRound 100 f.annual_income
    debt_to_income_ratio := decRound 10000 f.debt_to_income_ratio
    credit_score := decRound 100 f.credit_score
    loan_amount := decRound 100 f.loan_amount
    interest_rate := decRound 100 f.interest_rate
    gender := f.gender
    marital_status := f.marital_status
    education_level := f.education_level
    employment_status := f.employment_status
    loan_purpose := f.loan_purpose
    grade_subgrade := f.grade_subgrade
    prediction := prediction
    probability := decRound 10000 probability
    prediction_type := prediction_type
    batch_id := batch_id
    created_at := d.clock }

/-- Database contents after the insert of `insertedPredRow`. -/
def insertPred (d : DBData) (user_id : Nat) (nm : Option String)
    (f : Features) (prediction : Int) (probability : Rat)
    (prediction_type : String) (batch_id : Option Nat) : DBData :=
  { d with
    predictions :=
      d.predictions ++ [insertedPredRow d user_id nm f prediction probability
        prediction_type batch_id],
    nextPredId := d.nextPredId + 1,
    clock := d.clock + 1 }

/-- Transaction body of `create_prediction`: INSERT, then re-read the
stored row by `lastrowid` (`SELECT * FROM predictions WHERE id = %s`). -/
def predInsertOp (user_id : Nat) (nm : Option String) (f : Features)
    (prediction : Int) (probability : Rat) (prediction_type : String)
    (batch_id : Option Nat) (d : DBData) : Except Err (PredRow × DBData) :=
  let row := insertedPredRow d user_id nm f prediction probability
    prediction_type batch_id
  let d1 := insertPred d user_id nm f prediction probability
    prediction_type batch_id
  match d1.predictions.find? (fun r => r.id == row.id) with
  | some r => .ok (r, d1)
  | none => .error (.http 500 "stored row not found")

/-- Function `create_prediction`: one atomic insert-and-read-back inside a
`get_db` scope, returning the stored row. -/
def create_prediction (s : Sys) (user_id : Nat) (nm : Option String)
    (f : Features) (prediction : Int) (probability : Rat)
    (prediction_type : String) (batch_id : Option Nat) :
    Except Err PredRow × Sys :=
  get_db (predInsertOp user_id nm f prediction probability prediction_type
    batch_id) s

/-- Result order of `ORDER BY created_at DESC`: newest first. -/
def newestFirst (a b : PredRow) : Prop :=
  b.created_at ≤ a.created_at

instance : DecidableRel newestFirst :=
  fun a b => Nat.decLe b.created_at a.created_at

instance : IsTotal PredRow newestFirst :=
  ⟨fun a b => Nat.le_total b.created_at a.created_at⟩

instance : IsTrans PredRow newestFirst :=
  ⟨fun _ _ _ hab hbc => Nat.le_trans hbc hab⟩

/-- Function `get_user_predictions`:
`SELECT * FROM predictions WHERE user_id = %s ORDER BY created_at DESC`,
fully materialized with `fetchall` (the Decimal-to-float normalization on
read is the identity in the rational model). -/
def get_user_predictions (s : Sys) (user_id : Nat) :
    Except Err (List PredRow) × Sys :=
  get_db (fun d =>
    .ok (List.insertionSort newestFirst
          (d.predictions.filter (fun r => r.user_id == user_id)), d)) s

/-! ### app.py request models and handlers -/

/-- The `LoanData` request body of `/predict_single` (12 fields, `name`
included). -/
structure LoanData where
  name : String
  annual_income : Rat
  debt_to_income_ratio : Rat
  credit_score : Rat
  loan_amount : Rat
  interest_rate : Rat
  gender : String
  marital_status : String
  education_level : String
  employment_status : String
  loan_purpose : String
  grade_subgrade : String
deriving DecidableEq, Repr

/-- Effect of `loan_data_dict.pop("name")`: the scoring input assembled in the
order `meta["all_feature_columns"]` declares. -/
def stripName (d : LoanData) : Features :=
  { annual_income := d.annual_income
    debt_to_income_ratio := d.debt_to_income_ratio
    credit_score := d.credit_score
    loan_amount := d.loan_amount
    interest_rate := d.interest_rate
    gender := d.gender
    marital_status := d.marital_status
    education_level := d.education_level
    employment_status := d.employment_status
    loan_purpose := d.loan_purpose
    grade_subgrade := d.grade_subgrade }

/-- Response body of `/register` and `/login`. -/
structure TokenOut where
  access_token : Jwt
  token_type : String
deriving DecidableEq, Repr

/-- Response body of `/predict_single`. -/
structure PredictionResponse where
  id : Nat
  prediction : Int
  probability : Rat
  created_at : Nat
deriving DecidableEq, Repr

/-- Handler of `POST /register`: existence pre-checks on username then email
(each `400`), then `create_user` and a fresh token. -/
def register (digest : String → String → String) (s : Sys)
    (username email password : String) : Except Err TokenOut × Sys :=
  match get_user_by_username s username with
  | (.error e, s1) => (.error e, s1)
  | (.ok (some _), s1) => (.error (.http 400 "Username already exists"), s1)
  | (.ok none, s1) =>
    match get_user_by_email s1 email with
    | (.error e, s2) => (.error e, s2)
    | (.ok (some _), s2) => (.error (.http 400 "Email already exists"), s2)
    | (.ok none, s2) =>
      match create_user digest s2 username email password with
      | (.error e, s3) => (.error e, s3)
      | (.ok user, s3) =>
        (.ok ⟨create_access_token user.username s3.now, "bearer"⟩, s3)

/-- Handler of `POST /login`: `if not user or not verify_password(...)` yields the
single `401 "Invalid credentials"`; the password check is short-circuited
when the user does not exist. -/
def login (digest : String → String → String) (s : Sys)
    (username password : String) : Except Err TokenOut × Sys :=
  match get_user_by_username s username with
  | (.error e, s1) => (.error e, s1)
  | (.ok none, s1) => (.error (.http 401 "Invalid credentials"), s1)
  | (.ok (some user), s1) =>
    match verify_password digest password user.hashed_password with
    | .error e => (.error e, s1)
    | .ok false => (.error (.http 401 "Invalid credentials"), s1)
    | .ok true =>
      (.ok ⟨create_access_token user.username s1.now, "bearer"⟩, s1)

/-- Handler of `POST /predict_single`, after authentication resolved
`current_user` with id `uid`: score the name-stripped vector once, persist
through `create_prediction` with `type="single"`, `batch_id=NULL`, and
answer with the stored row's id, prediction, probability and timestamp. -/
def predict_single (scorer : Features → Int × Rat) (s : Sys) (uid : Nat)
    (data : LoanData) : Except Err PredictionResponse × Sys :=
  let fv := stripName data
  let pred := (scorer fv).1
  let prob := (scorer fv).2
  match create_prediction s uid (some data.name) fv pred prob "single" none with
  | (.error e, s1) => (.error e, s1)
  | (.ok row, s1) =>
    (.ok ⟨row.id, row.prediction, row.probability, row.created_at⟩, s1)

/-- One parsed CSV row of a batch upload: the `name` cell (`none` models
a pandas NaN from an empty cell) and the scoring features. -/
structure CsvRow where
  nameCell : Option String
  features : Features
deriving DecidableEq, Repr

/-- A parsed batch upload: whether the `name` column is present at all,
and the rows in file order. -/
structure CsvTable where
  hasNameColumn : Bool
  rows : List CsvRow
deriving DecidableEq, Repr

/-- Per-row entry of the `/predict_batch` response. -/
structure BatchEntry where
  name : Option String
  prediction : Int
  probability : Rat
deriving DecidableEq, Repr

/-- Response body of `/predict_batch`. -/
structure BatchResponse where
  batch_id : Nat
  count : Nat
  predictions : List BatchEntry
deriving DecidableEq, Repr

/-- One unit of the batch loop: the row's name value, features, and the
already-computed decision and positive-class probability. -/
structure BatchItem where
  name : Option String
  features : Features
  pred : Int
  prob : Rat
deriving DecidableEq, Repr

/-- Names list `names = df["name"].tolist() if "name" in df.columns else
["Unknown"] * len(df)`: the substitution happens per column, not per
cell. -/
def batchNames (table : CsvTable) : List (Option String) :=
  if table.hasNameColumn then table.rows.map (fun r => r.nameCell)
  else table.rows.map (fun _ => some "Unknown")

/-- The `for idx, row in df_for_prediction.iterrows()` loop: persist each
row with the shared `batch_id` and collect the response entries; an
exception aborts the loop, leaving earlier rows persisted. -/
def batchLoop (uid bid : Nat) :
    List BatchItem → Sys → Except Err (List BatchEntry) × Sys
  | [], s => (.ok [], s)
  | it :: rest, s =>
    match create_prediction s uid it.name it.features it.pred it.prob
        "batch" (some bid) with
    | (.error e, s1) => (.error e, s1)
    | (.ok _, s1) =>
      match batchLoop uid bid rest s1 with
      | (.error e, s2) => (.error e, s2)
      | (.ok es, s2) => (.ok (⟨it.name, it.pred, it.prob⟩ :: es), s2)

/-- The per-row work list of a batch request: each row's name value
(`names[idx]`) paired with its features and the vectorized
`pipeline.predict` / `pipeline.predict_proba[:, 1]` results. -/
def batchItems (scorer : Features → Int × Rat) (table : CsvTable) :
    List BatchItem :=
  ((batchNames table).zip table.rows).map (fun nr =>
    (⟨nr.1, nr.2.features, (scorer nr.2.features).1,
      (scorer nr.2.features).2⟩ : BatchItem))

/-- Handler of `POST /predict_batch` after authentication: extract names,
score all rows, draw one fresh batch id, persist row by row in input
order, and answer with the batch id, the row count and the per-row
entries. -/
def predict_batch (scorer : Features → Int × Rat) (s : Sys) (uid : Nat)
    (table : CsvTable) : Except Err BatchResponse × Sys :=
  let items := batchItems scorer table
  let bid := s.uuidCtr
  let s1 := { s with uuidCtr := s.uuidCtr + 1 }
  match batchLoop uid bid items s1 with
  | (.error e, s2) => (.error e, s2)
  | (.ok entries, s2) => (.ok ⟨bid, entries.length, entries⟩, s2)

/-- Handler of `GET /predictions/history` after authentication. -/
def get_history (s : Sys) (uid : Nat) : Except Err (List PredRow) × Sys :=
  get_user_predictions s uid

/-! ### Invariants of reachable states -/

/-- Every stored prediction id is below the AUTO_INCREMENT counter (what
MySQL guarantees for `lastrowid`). -/
def predIdInv (d : DBData) : Bool :=
  d.predictions.all (fun r => decide (r.id < d.nextPredId))

/-- Every stored batch id was drawn from the uuid source: it is below the
current counter, so the next draw is fresh. -/
def uuidInv (s : Sys) : Bool :=
  s.data.predictions.all (fun r =>
    match r.batch_id with
    | none => true
    | some b => decide (b < s.uuidCtr))

/-- A fresh process state over an empty database (pool already created,
five free connections, MySQL reachable). -/
def initSys : Sys :=
  { pool := some ()
    free := 5
    reachable := true
    data := { users := [], predictions := [], nextUserId := 1,
              nextPredId := 1, clock := 0 }
    saltCtr := 0
    uuidCtr := 0
    now := 0 }

/-! ### Observation helpers and concrete instances used in statements -/

/-- The response entry a batch loop item produces. -/
def itemEntry (it : BatchItem) : BatchEntry :=
  ⟨it.name, it.pred, it.prob⟩

/-- Expected stored content of a batch loop item (name, decision,
rounded probability, batch id, type, owner). -/
def itemSummary (uid bid : Nat) (it : BatchItem) :
    Option String × Int × Rat × Option Nat × String × Nat :=
  (it.name, it.pred, decRound 10000 it.prob, some bid, "batch", uid)

/-- Stored content of a prediction row, in the shape of `itemSummary`. -/
def rowSummary (r : PredRow) : Option String × Int × Rat × Option Nat × String × Nat :=
  (r.name, r.prediction, r.probability, r.batch_id, r.prediction_type, r.user_id)

/-- A concrete bcrypt core used for closed statements. -/
def demoDigest : String → String → String :=
  fun p s => p ++ "#" ++ s

/-- A concrete deterministic scorer: decision 1, probability 0.12345
(five significant fractional digits, not representable in DECIMAL(5,4)). -/
def cScorer : Features → Int × Rat :=
  fun _ => (1, (12345 : Rat) / 100000)

/-- A concrete feature vector. -/
def f0 : Features :=
  ⟨90000, (25 : Rat)/100, 750, 20000, 5, "Female", "Single", "Bachelor",
   "Employed", "Home", "A1"⟩

/-- A concrete `/predict_single` body. -/
def d0 : LoanData :=
  ⟨"Alice", 90000, (25 : Rat)/100, 750, 20000, 5, "Female", "Single",
   "Bachelor", "Employed", "Home", "A1"⟩

/-- A state holding exactly one registered user (id 1, alice). -/
def sysAlice : Sys :=
  { initSys with
    data := { initSys.data with
      users := [⟨1, "alice", "alice@x.com",
                 hashpw demoDigest "pw123" "salt0", 0⟩],
      nextUserId := 2 } }

/-- A batch upload whose `name` column is present but whose only row has
an empty (NaN) name cell. -/
def tblNaN : CsvTable := ⟨true, [⟨none, f0⟩]⟩

/-- A two-row batch upload with a `name` column. -/
def tbl2 : CsvTable := ⟨true, [⟨some "Bob", f0⟩, ⟨some "Carol", f0⟩]⟩

/-- A two-row batch upload without a `name` column. -/
def tblNoName : CsvTable := ⟨false, [⟨none, f0⟩, ⟨none, f0⟩]⟩

/-- Probability field of a `/predict_single` response, if any. -/
def respProb : Except Err PredictionResponse → Option Rat
  | .ok r => some r.probability
  | .error _ => none

/-- Prediction field of a `/predict_single` response, if any. -/
def respPred : Except Err PredictionResponse → Option Int
  | .ok r => some r.prediction
  | .error _ => none

/-- Number of stored user rows carrying a given username. -/
def countUsername (s : Sys) (u : String) : Nat :=
  (s.data.users.filter (fun x => x.username == u)).length

/-- Number of stored user rows carrying a given email. -/
def countEmail (s : Sys) (e : String) : Nat :=
  (s.data.users.filter (fun x => x.email == e)).length

/-- A concrete stored prediction row (id `i`, owner `uid`, time `t`). -/
def mkRow (i uid t : Nat) : PredRow :=
  ⟨i, uid, some "r", 1000, (1 : Rat)/4, 700, 5000, 5, "F", "S", "B", "E",
   "H", "A1", 1, (1 : Rat)/2, "single", none, t⟩

/-- A state whose prediction store holds rows of two different users. -/
def sysHist : Sys :=
  { sysAlice with
    data := { sysAlice.data with
      predictions := [mkRow 1 1 0, mkRow 2 2 1, mkRow 3 1 2],
      nextPredId := 4,
      clock := 3 } }

instance {ε α : Type} [DecidableEq ε] [DecidableEq α] :
    DecidableEq (Except ε α) := fun a b =>
  match a, b with
  | .ok x, .ok y =>
    if h : x = y then .isTrue (by rw [h]) else .isFalse (by simp [h])
  | .error e, .error e' =>
    if h : e = e' then .isTrue (by rw [h]) else .isFalse (by simp [h])
  | .ok _, .error _ => .isFalse (by simp)
  | .error _, .ok _ => .isFalse (by simp)

/-! ### Helper lemmas -/

theorem get_db_ok {α : Type} (op : DBData → Except Err (α × DBData)) (s : Sys)
    (hp : s.pool = some ()) (hf : 0 < s.free) (a : α) (d' : DBData)
    (hop : op s.data = .ok (a, d')) :
    get_db op s = (.ok a, { s with data := d' }) := by
  obtain ⟨po, fr, re, da, sa, uu, no⟩ := s
  simp only at hp hop hf
  subst hp
  have hfree : fr - 1 + 1 = fr := by omega
  simp [get_db, hop, hfree]

theorem get_db_err {α : Type} (op : DBData → Except Err (α × DBData)) (s : Sys)
    (hp : s.pool = some ()) (hf : 0 < s.free) (e : Err)
    (hop : op s.data = .error e) :
    get_db op s = (.error e, s) := by
  obtain ⟨po, fr, re, da, sa, uu, no⟩ := s
  simp only at hp hop hf
  subst hp
  have hfree : fr - 1 + 1 = fr := by omega
  simp [get_db, hop, hfree]

theorem get_db_read {α : Type} (q : DBData → α) (s : Sys)
    (hp : s.pool = some ()) (hf : 0 < s.free) :
    get_db (fun d => .ok (q d, d)) s = (.ok (q s.data), s) := by
  have h := get_db_ok (fun d => .ok (q d, d)) s hp hf (q s.data) s.data rfl
  simpa using h

theorem predIdInv_mem {d : DBData} (h : predIdInv d = true) {r : PredRow}
    (hr : r ∈ d.predictions) : r.id < d.nextPredId :=
  of_decide_eq_true (List.all_eq_true.mp h r hr)

theorem uuidInv_mem {s : Sys} (h : uuidInv s = true) {r : PredRow}
    (hr : r ∈ s.data.predictions) {b : Nat} (hb : r.batch_id = some b) :
    b < s.uuidCtr := by
  have := List.all_eq_true.mp h r hr
  rw [hb] at this
  exact of_decide_eq_true this

theorem predIdInv_insertPred (d : DBData) (uid : Nat) (nm : Option String)
    (f : Features) (pr : Int) (pb : Rat) (ty : String) (bid : Option Nat)
    (h : predIdInv d = true) :
    predIdInv (insertPred d uid nm f pr pb ty bid) = true := by
  rw [predIdInv, List.all_eq_true]
  intro r hr
  rw [insertPred] at hr
  simp only [List.mem_append, List.mem_singleton] at hr
  rcases hr with hr | hr
  · have := predIdInv_mem h hr
    simp only [insertPred]
    exact decide_eq_true (by omega)
  · subst hr
    simp only [insertPred, insertedPredRow]
    exact decide_eq_true (by omega)

theorem create_prediction_spec (s : Sys) (uid : Nat) (nm : Option String)
    (f : Features) (pr : Int) (pb : Rat) (ty : String) (bid : Option Nat)
    (hp : s.pool = some ()) (hf : 0 < s.free)
    (hinv : predIdInv s.data = true) :
    create_prediction s uid nm f pr pb ty bid =
      (.ok (insertedPredRow s.data uid nm f pr pb ty bid),
       { s with data := insertPred s.data uid nm f pr pb ty bid }) := by
  have hnone : s.data.predictions.find?
      (fun r => r.id == (insertedPredRow s.data uid nm f pr pb ty bid).id)
        = none := by
    rw [List.find?_eq_none]
    intro x hx
    have hlt := predIdInv_mem hinv hx
    simp only [insertedPredRow, beq_iff_eq]
    omega
  have hfind : (insertPred s.data uid nm f pr pb ty bid).predictions.find?
      (fun r => r.id == (insertedPredRow s.data uid nm f pr pb ty bid).id)
        = some (insertedPredRow s.data uid nm f pr pb ty bid) := by
    show (s.data.predictions ++ [insertedPredRow s.data uid nm f pr pb ty bid]).find? _
      = _
    rw [List.find?_append, hnone]
    simp
  have hop : predInsertOp uid nm f pr pb ty bid s.data =
      .ok (insertedPredRow s.data uid nm f pr pb ty bid,
           insertPred s.data uid nm f pr pb ty bid) := by
    rw [predInsertOp]
    rw [hfind]
  exact get_db_ok _ s hp hf _ _ hop

theorem batchNames_length (table : CsvTable) :
    (batchNames table).length = table.rows.length := by
  rw [batchNames]
  split <;> simp

theorem batchItems_length (scorer : Features → Int × Rat) (table : CsvTable) :
    (batchItems scorer table).length = table.rows.length := by
  simp [batchItems, List.length_zip, batchNames_length]

theorem batchLoop_spec (uid bid : Nat) (items : List BatchItem) :
    ∀ s : Sys, s.pool = some () → 0 < s.free → predIdInv s.data = true →
    ∃ newRows : List PredRow, ∃ s' : Sys,
      batchLoop uid bid items s = (.ok (items.map itemEntry), s') ∧
      s'.pool = s.pool ∧ s'.free = s.free ∧ s'.reachable = s.reachable ∧
      s'.saltCtr = s.saltCtr ∧ s'.uuidCtr = s.uuidCtr ∧ s'.now = s.now ∧
      s'.data.users = s.data.users ∧
      s'.data.nextUserId = s.data.nextUserId ∧
      s'.data.nextPredId = s.data.nextPredId + items.length ∧
      s'.data.predictions = s.data.predictions ++ newRows ∧
      predIdInv s'.data = true ∧
      newRows.length = items.length ∧
      newRows.map rowSummary = items.map (itemSummary uid bid) ∧
      newRows.map (fun r => r.id) = List.range' s.data.nextPredId items.length := by
  induction items with
  | nil =>
    intro s hp hf hinv
    exact ⟨[], s, by simp [batchLoop], rfl, rfl, rfl, rfl, rfl, rfl, rfl, rfl,
      by simp, by simp, hinv, rfl, rfl, by simp⟩
  | cons it rest ih =>
    intro s hp hf hinv
    have hstep := create_prediction_spec s uid it.name it.features it.pred
      it.prob "batch" (some bid) hp hf hinv
    obtain ⟨rows2, s2, hloop, hpool, hfree, hre, hsa, huu, hno, husers, hnui,
        hnpi, hpreds, hinv2, hlen, hsum, hids⟩ :=
      ih { s with data := (insertPred s.data uid it.name it.features it.pred
            it.prob "batch" (some bid)) }
        hp hf (predIdInv_insertPred s.data uid it.name it.features it.pred
          it.prob "batch" (some bid) hinv)
    refine ⟨insertedPredRow s.data uid it.name it.features it.pred it.prob
        "batch" (some bid) :: rows2, s2, ?_, hpool, hfree, hre, hsa, huu, hno,
      husers, hnui, ?_, ?_, hinv2, ?_, ?_, ?_⟩
    · simp only [batchLoop, hstep, hloop, List.map_cons, itemEntry]
    · have h1 : ({ s with data := (insertPred s.data uid it.name it.features
          it.pred it.prob "batch" (some bid)) } : Sys).data.nextPredId
            = s.data.nextPredId + 1 := rfl
      rw [h1] at hnpi
      rw [hnpi, List.length_cons]
      omega
    · have h1 : ({ s with data := (insertPred s.data uid it.name it.features
          it.pred it.prob "batch" (some bid)) } : Sys).data.predictions
            = s.data.predictions ++ [insertedPredRow s.data uid it.name
                it.features it.pred it.prob "batch" (some bid)] := rfl
      rw [h1] at hpreds
      rw [hpreds, List.append_assoc]
      rfl
    · simp [hlen]
    · simp only [List.map_cons, hsum]
      rfl
    · simp only [List.map_cons, hids, List.length_cons]
      have h1 : (insertedPredRow s.data uid it.name it.features it.pred it.prob
          "batch" (some bid)).id = s.data.nextPredId := rfl
      have h2 : ({ s with data := (insertPred s.data uid it.name it.features
          it.pred it.prob "batch" (some bid)) } : Sys).data.nextPredId
            = s.data.nextPredId + 1 := rfl
      rw [h1, h2, List.range'_succ]

theorem predict_batch_spec (scorer : Features → Int × Rat) (s : Sys)
    (uid : Nat) (table : CsvTable) (hp : s.pool = some ()) (hf : 0 < s.free)
    (hinv : predIdInv s.data = true) :
    ∃ newRows : List PredRow, ∃ s' : Sys,
      predict_batch scorer s uid table =
        (.ok ⟨s.uuidCtr, table.rows.length,
              (batchItems scorer table).map itemEntry⟩, s') ∧
      s'.pool = s.pool ∧ s'.free = s.free ∧
      s'.uuidCtr = s.uuidCtr + 1 ∧
      s'.data.users = s.data.users ∧
      s'.data.predictions = s.data.predictions ++ newRows ∧
      predIdInv s'.data = true ∧
      newRows.length = table.rows.length ∧
      newRows.map rowSummary =
        (batchItems scorer table).map (itemSummary uid s.uuidCtr) ∧
      newRows.map (fun r => r.id) =
        List.range' s.data.nextPredId table.rows.length := by
  obtain ⟨newRows, s2, hloop, hpool, hfree, _, _, huu, _, husers, _, _,
      hpreds, hinv2, hlen, hsum, hids⟩ :=
    batchLoop_spec uid s.uuidCtr (batchItems scorer table)
      { s with uuidCtr := s.uuidCtr + 1 } hp hf hinv
  have hcnt : ((batchItems scorer table).map itemEntry).length
      = table.rows.length := by
    rw [List.length_map, batchItems_length]
  refine ⟨newRows, s2, ?_, hpool, hfree, huu, husers, hpreds, hinv2,
    hlen.trans (batchItems_length scorer table), hsum,
    hids.trans (by rw [batchItems_length])⟩
  simp only [predict_batch, hloop, hcnt]

theorem rowSummary_fields {uid bid : Nat} {newRows : List PredRow}
    {items : List BatchItem}
    (h : newRows.map rowSummary = items.map (itemSummary uid bid)) :
    ∀ r ∈ newRows, r.batch_id = some bid ∧ r.prediction_type = "batch" ∧
      r.user_id = uid ∧ (∃ it ∈ items, r.name = it.name) := by
  intro r hr
  have hmem : rowSummary r ∈ items.map (itemSummary uid bid) :=
    h ▸ List.mem_map_of_mem rowSummary hr
  obtain ⟨it, hit, heq⟩ := List.mem_map.mp hmem
  rw [itemSummary, rowSummary, Prod.ext_iff, Prod.ext_iff, Prod.ext_iff,
    Prod.ext_iff, Prod.ext_iff] at heq
  obtain ⟨h1, _, _, h4, h5, h6⟩ := heq
  exact ⟨h4.symm, h5.symm, h6.symm, it, hit, h1.symm⟩

theorem batchItems_name_of_noCol (scorer : Features → Int × Rat)
    (rows : List CsvRow) :
    ∀ it ∈ batchItems scorer ⟨false, rows⟩, it.name = some "Unknown" := by
  intro it hit
  rw [batchItems] at hit
  obtain ⟨nr, hnr, heq⟩ := List.mem_map.mp hit
  obtain ⟨a, b⟩ := nr
  have h1 : a ∈ batchNames ⟨false, rows⟩ := (List.of_mem_zip hnr).1
  rw [batchNames] at h1
  simp only [Bool.false_eq_true, if_false, List.mem_map] at h1
  obtain ⟨_, _, hu⟩ := h1
  subst heq
  show a = some "Unknown"
  exact hu.symm

theorem get_user_by_username_spec (s : Sys) (u : String)
    (hp : s.pool = some ()) (hf : 0 < s.free) :
    get_user_by_username s u =
      (.ok (s.data.users.find? (fun x => x.username == u)), s) := by
  unfold get_user_by_username
  exact get_db_read (fun d => d.users.find? (fun x => x.username == u)) s hp hf

theorem get_user_by_email_spec (s : Sys) (e : String)
    (hp : s.pool = some ()) (hf : 0 < s.free) :
    get_user_by_email s e =
      (.ok (s.data.users.find? (fun x => x.email == e)), s) := by
  unfold get_user_by_email
  exact get_db_read (fun d => d.users.find? (fun x => x.email == e)) s hp hf

/-! ### Claim theorems -/

/-- C3: for a scoped `get_db` acquisition on an initialized pool, a body
that completes normally has its data committed and the connection released
(the free count is restored), and a body that raises any error has the
transaction rolled back — the committed data and the whole process state
are exactly as before — with the connection again released. -/
theorem c3_get_db_commit_rollback_release {α : Type}
    (op : DBData → Except Err (α × DBData)) (s : Sys)
    (hp : s.pool = some ()) (hf : 0 < s.free) :
    (∀ (a : α) (d' : DBData), op s.data = .ok (a, d') →
       get_db op s = (.ok a, { s with data := d' })) ∧
    (∀ e : Err, op s.data = .error e → get_db op s = (.error e, s)) :=
  ⟨fun a d' hop => get_db_ok op s hp hf a d' hop,
   fun e hop => get_db_err op s hp hf e hop⟩

/-- C3 witness: a committing body and a raising body, both on the fresh
state with all five connections free. -/
theorem c3_witness :
    get_db (fun d => Except.ok (7, d)) initSys = (.ok 7, initSys) ∧
    get_db (fun _ => (Except.error (Err.http 500 "boom") :
        Except Err (Nat × DBData))) initSys =
      (.error (.http 500 "boom"), initSys) := by
  constructor
  · have h := (c3_get_db_commit_rollback_release (fun d => Except.ok (7, d))
      initSys rfl (by decide)).1 7 initSys.data rfl
    simpa using h
  · exact (c3_get_db_commit_rollback_release _ initSys rfl (by decide)).2
      (.http 500 "boom") rfl

/-- C7 counterexample: with the pool global still `None` and MySQL
unreachable, an acquisition attempt fails with `AttributeError` (from
`None.get_connection()`), not with `ConnectionError`. -/
theorem c7_counterexample :
    (get_db (fun d => Except.ok (0, d))
        { initSys with pool := none, reachable := false }).1 =
      .error .attributeError ∧
    (get_db (fun d => Except.ok (0, d))
        { initSys with pool := none, reachable := false }).1 ≠
      .error .connectionError := by
  exact ⟨by decide, by decide⟩

/-- C7 amended: while pool initialization keeps failing (database
unreachable), every acquisition attempt fails with `AttributeError` — the
swallowed `mysql.connector.Error` leaves the pool global `None`, so this
is not a `ConnectionError` — and the state is unchanged (no crash);
each acquisition re-attempts initialization, so as soon as the database is
reachable again the acquisition behaves exactly as with a created pool. -/
theorem c7_pool_failure_behavior {α : Type}
    (op : DBData → Except Err (α × DBData)) (s : Sys) (h : s.pool = none) :
    (s.reachable = false → get_db op s = (.error .attributeError, s)) ∧
    (s.reachable = true →
       get_db op s = get_db op { s with pool := some () }) := by
  obtain ⟨po, fr, re, da, sa, uu, no⟩ := s
  simp only at h
  subst h
  constructor
  · intro hr
    simp only at hr
    subst hr
    simp [get_db, init_connection_pool]
  · intro hr
    simp only at hr
    subst hr
    simp [get_db, init_connection_pool]

/-- C7 witness: the failing path at a concrete unreachable state, and the
recovery path at a concrete reachable state. -/
theorem c7_witness :
    get_db (fun d => Except.ok (0, d))
        { initSys with pool := none, reachable := false } =
      (.error .attributeError, { initSys with pool := none, reachable := false }) ∧
    get_db (fun d => Except.ok (0, d)) { initSys with pool := none } =
      get_db (fun d => Except.ok (0, d))
        { { initSys with pool := none } with pool := some () } :=
  ⟨(c7_pool_failure_behavior (fun d => Except.ok (0, d))
      { initSys with pool := none, reachable := false } rfl).1 rfl,
   (c7_pool_failure_behavior (fun d => Except.ok (0, d))
      { initSys with pool := none } rfl).2 rfl⟩

/-- C1 counterexample: with a scorer returning probability 0.12345, the
`/predict_single` response — built from the row read back out of the
`DECIMAL(5,4)` probability column — carries 0.1235, not the scorer's
value, so the end-to-end path does not preserve the probability exactly. -/
theorem c1_counterexample :
    respProb (predict_single cScorer sysAlice 1 d0).1 =
      some ((247 : Rat) / 2000) ∧
    (cScorer (stripName d0)).2 = (12345 : Rat) / 100000 ∧
    ((247 : Rat) / 2000) ≠ (12345 : Rat) / 100000 := by
  have h := create_prediction_spec sysAlice 1 (some d0.name) (stripName d0)
    (cScorer (stripName d0)).1 (cScorer (stripName d0)).2 "single" none rfl
    (by decide) (by decide)
  refine ⟨?_, rfl, by norm_num⟩
  simp only [predict_single, h, respProb, insertedPredRow]
  rw [cScorer]
  show some (decRound 10000 ((12345 : Rat) / 100000)) = _
  rw [decRound]
  norm_num

/-- C1 amended: `predict_single` scores the name-stripped vector exactly
as a direct scorer invocation would; the decision is preserved exactly
end-to-end, while the persisted and returned probability is the scorer's
probability rounded to four decimal places by the `DECIMAL(5,4)` storage
column (hence equal to the scorer's value exactly when that value is a
multiple of 1/10000). -/
theorem c1_single_roundtrip (scorer : Features → Int × Rat) (s : Sys)
    (uid : Nat) (d : LoanData) (hp : s.pool = some ()) (hf : 0 < s.free)
    (hinv : predIdInv s.data = true) :
    ∃ (resp : PredictionResponse) (s' : Sys),
      predict_single scorer s uid d = (.ok resp, s') ∧
      resp.prediction = (scorer (stripName d)).1 ∧
      resp.probability = decRound 10000 (scorer (stripName d)).2 ∧
      s'.data.predictions = s.data.predictions ++
        [insertedPredRow s.data uid (some d.name) (stripName d)
          (scorer (stripName d)).1 (scorer (stripName d)).2 "single" none] ∧
      (insertedPredRow s.data uid (some d.name) (stripName d)
          (scorer (stripName d)).1 (scorer (stripName d)).2 "single"
          none).prediction = resp.prediction ∧
      (insertedPredRow s.data uid (some d.name) (stripName d)
          (scorer (stripName d)).1 (scorer (stripName d)).2 "single"
          none).probability = resp.probability := by
  have h := create_prediction_spec s uid (some d.name) (stripName d)
    (scorer (stripName d)).1 (scorer (stripName d)).2 "single" none hp hf hinv
  refine ⟨⟨s.data.nextPredId, (scorer (stripName d)).1,
      decRound 10000 (scorer (stripName d)).2, s.data.clock⟩,
    { s with data := (insertPred s.data uid (some d.name) (stripName d)
        (scorer (stripName d)).1 (scorer (stripName d)).2 "single" none) },
    ?_, rfl, rfl, rfl, rfl, rfl⟩
  simp only [predict_single, h]
  rfl

/-- C1 witness: the amended round-trip at the concrete scorer and body. -/
theorem c1_witness :
    ∃ (resp : PredictionResponse) (s' : Sys),
      predict_single cScorer sysAlice 1 d0 = (.ok resp, s') ∧
      resp.prediction = (cScorer (stripName d0)).1 ∧
      resp.probability = decRound 10000 (cScorer (stripName d0)).2 := by
  obtain ⟨resp, s', h1, h2, h3, _⟩ := c1_single_roundtrip cScorer sysAlice 1 d0
    rfl (by decide) (by decide)
  exact ⟨resp, s', h1, h2, h3⟩

/-- C5: a token properly signed with the server secret and encoding expiry
T decodes at any current time strictly before T to its payload (carrying
the encoded subject), fails at any time at or after T with
`401 "Token expired"`, and any token whose signature does not verify fails
with `401 "Invalid token"`; `create_access_token` issues exactly such a
token with T = issuance time + 24 hours. -/
theorem c5_token_validation (u : String) (T now tIssue : Nat) :
    (now < T →
       decode_token (jwtEncode ⟨u, T⟩ SECRET_KEY) now = .ok ⟨u, T⟩) ∧
    (T ≤ now →
       decode_token (jwtEncode ⟨u, T⟩ SECRET_KEY) now =
         .error (.http 401 "Token expired")) ∧
    (∀ t : Jwt, t.sig ≠ signTag SECRET_KEY t.payload →
       decode_token t now = .error (.http 401 "Invalid token")) ∧
    create_access_token u tIssue =
      jwtEncode ⟨u, tIssue + ACCESS_TOKEN_EXPIRE_MINUTES * 60⟩ SECRET_KEY := by
  refine ⟨?_, ?_, ?_, rfl⟩
  · intro h
    have hexp : ¬ (T ≤ now) := Nat.not_le.mpr h
    simp [decode_token, jwtDecode, jwtEncode, hexp]
  · intro h
    simp [decode_token, jwtDecode, jwtEncode, h]
  · intro t h
    simp [decode_token, jwtDecode, h]

/-- C5 witness: a token with expiry 100 decodes at time 99, expires at
time 100, and a token with a forged signature is rejected. -/
theorem c5_witness :
    decode_token (jwtEncode ⟨"alice", 100⟩ SECRET_KEY) 99 =
      .ok ⟨"alice", 100⟩ ∧
    decode_token (jwtEncode ⟨"alice", 100⟩ SECRET_KEY) 100 =
      .error (.http 401 "Token expired") ∧
    decode_token ⟨⟨"alice", 100⟩, "forged"⟩ 0 =
      .error (.http 401 "Invalid token") :=
  ⟨(c5_token_validation "alice" 100 99 0).1 (by decide),
   (c5_token_validation "alice" 100 100 0).2.1 (by decide),
   (c5_token_validation "alice" 100 0 0).2.2.1 ⟨⟨"alice", 100⟩, "forged"⟩
     (by decide)⟩

/-- C6 counterexample: `verify_password` on a malformed hash string
propagates bcrypt's `ValueError("Invalid salt")` — it raises rather than
returning false. -/
theorem c6_counterexample :
    verify_password demoDigest "password123" "not-a-bcrypt-hash" =
      .error (.valueError "Invalid salt") ∧
    verify_password demoDigest "password123" "not-a-bcrypt-hash" ≠
      .ok false :=
  ⟨by decide, by decide⟩

/-- C6 amended: for every plaintext and every malformed (non-bcrypt)
string passed as the hashed argument, `verify_password` raises
`ValueError("Invalid salt")` (propagated uncaught from `bcrypt.checkpw`)
instead of returning false. -/
theorem c6_malformed_hash_raises (digest : String → String → String)
    (plain hashed : String) (h : isBcryptHash hashed = false) :
    verify_password digest plain hashed =
      .error (.valueError "Invalid salt") := by
  simp [verify_password, checkpw, h]

/-- C6 witness: the amended behavior at a concrete malformed hash. -/
theorem c6_witness :
    verify_password demoDigest "pw" "nothash" =
      .error (.valueError "Invalid salt") :=
  c6_malformed_hash_raises demoDigest "pw" "nothash" (by decide)

/-- C2: a batch request over N already-parsed rows persists exactly N
prediction records, appended to the store in strict input order with
consecutive ids, all tagged `batch` for the calling user and all sharing
the one batch id drawn freshly for this request — no record of any earlier
submission carries that id, and the freshness invariant is re-established
so no later submission can reuse it; the response's count equals N. -/
theorem c2_batch_grouping (scorer : Features → Int × Rat) (s : Sys)
    (uid : Nat) (table : CsvTable) (hp : s.pool = some ()) (hf : 0 < s.free)
    (hinv : predIdInv s.data = true) (hu : uuidInv s = true) :
    ∃ (resp : BatchResponse) (s' : Sys) (newRows : List PredRow),
      predict_batch scorer s uid table = (.ok resp, s') ∧
      resp.count = table.rows.length ∧
      resp.batch_id = s.uuidCtr ∧
      s'.data.predictions = s.data.predictions ++ newRows ∧
      newRows.length = table.rows.length ∧
      (∀ r ∈ newRows, r.batch_id = some resp.batch_id ∧
         r.prediction_type = "batch" ∧ r.user_id = uid) ∧
      newRows.map (fun r => r.id) =
        List.range' s.data.nextPredId table.rows.length ∧
      newRows.map rowSummary =
        (batchItems scorer table).map (itemSummary uid s.uuidCtr) ∧
      (∀ r ∈ s.data.predictions, r.batch_id ≠ some resp.batch_id) ∧
      uuidInv s' = true := by
  obtain ⟨newRows, s', hcall, hpool, hfree, huu, husers, hpreds, hinv2, hlen,
      hsum, hids⟩ := predict_batch_spec scorer s uid table hp hf hinv
  refine ⟨_, s', newRows, hcall, rfl, rfl, hpreds, hlen, ?_, hids, hsum,
    ?_, ?_⟩
  · intro r hr
    obtain ⟨h1, h2, h3, _⟩ := rowSummary_fields hsum r hr
    exact ⟨h1, h2, h3⟩
  · intro r hr heq
    exact absurd (uuidInv_mem hu hr heq) (Nat.lt_irrefl s.uuidCtr)
  · rw [uuidInv, List.all_eq_true]
    intro r hr
    rw [hpreds, List.mem_append] at hr
    rcases hr with hr | hr
    · cases hb : r.batch_id with
      | none => simp
      | some b =>
        have hlt := uuidInv_mem hu hr hb
        rw [huu]
        exact decide_eq_true (by omega)
    · obtain ⟨h1, _, _, _⟩ := rowSummary_fields hsum r hr
      rw [h1, huu]
      exact decide_eq_true (by omega)

/-- C2 witness: a concrete two-row batch on the one-user state. -/
theorem c2_witness :
    ∃ (resp : BatchResponse) (s' : Sys) (newRows : List PredRow),
      predict_batch cScorer sysAlice 1 tbl2 = (.ok resp, s') ∧
      resp.count = 2 ∧
      newRows.length = 2 ∧
      s'.data.predictions = sysAlice.data.predictions ++ newRows := by
  obtain ⟨resp, s', rows, h1, h2, _, h4, h5, _⟩ :=
    c2_batch_grouping cScorer sysAlice 1 tbl2 rfl (by decide) (by decide)
      (by decide)
  exact ⟨resp, s', rows, h1, h2, h5, h4⟩

/-- C8 counterexample: a batch upload whose `name` column is present but
whose single row has an empty (NaN) name cell is persisted and answered
with that NaN value, not with the placeholder "Unknown". -/
theorem c8_counterexample :
    (predict_batch cScorer sysAlice 1 tblNaN).2.data.predictions.map
        (fun r => r.name) = [none] ∧
    ((predict_batch cScorer sysAlice 1 tblNaN).1.map
        (fun resp => resp.predictions.map (fun e => e.name))) =
      .ok [none] ∧
    (none : Option String) ≠ some "Unknown" :=
  ⟨by decide, by decide, by decide⟩

/-- C8 amended: the "Unknown" substitution is per column, not per row:
when the uploaded table has no `name` column at all, every persisted
record and every per-row response entry carries the name "Unknown" (a row
with an empty name cell under a present column instead keeps the NaN
value). -/
theorem c8_unknown_when_no_name_column (scorer : Features → Int × Rat)
    (s : Sys) (uid : Nat) (rows : List CsvRow) (hp : s.pool = some ())
    (hf : 0 < s.free) (hinv : predIdInv s.data = true) :
    ∃ (resp : BatchResponse) (s' : Sys) (newRows : List PredRow),
      predict_batch scorer s uid ⟨false, rows⟩ = (.ok resp, s') ∧
      s'.data.predictions = s.data.predictions ++ newRows ∧
      newRows.length = rows.length ∧
      (∀ r ∈ newRows, r.name = some "Unknown") ∧
      (∀ e ∈ resp.predictions, e.name = some "Unknown") := by
  obtain ⟨newRows, s', hcall, _, _, _, _, hpreds, _, hlen, hsum, _⟩ :=
    predict_batch_spec scorer s uid ⟨false, rows⟩ hp hf hinv
  refine ⟨_, s', newRows, hcall, hpreds, hlen, ?_, ?_⟩
  · intro r hr
    obtain ⟨_, _, _, it, hit, hname⟩ := rowSummary_fields hsum r hr
    rw [hname, batchItems_name_of_noCol scorer rows it hit]
  · intro e he
    obtain ⟨it, hit, heq⟩ := List.mem_map.mp he
    rw [← heq]
    show it.name = some "Unknown"
    exact batchItems_name_of_noCol scorer rows it hit

/-- C8 witness: the amended substitution at a concrete two-row upload
without a name column. -/
theorem c8_witness :
    ∃ (resp : BatchResponse) (s' : Sys) (newRows : List PredRow),
      predict_batch cScorer sysAlice 1 ⟨false, tblNoName.rows⟩ =
        (.ok resp, s') ∧
      (∀ r ∈ newRows, r.name = some "Unknown") ∧
      (∀ e ∈ resp.predictions, e.name = some "Unknown") := by
  obtain ⟨resp, s', rows, h1, _, _, h4, h5⟩ :=
    c8_unknown_when_no_name_column cScorer sysAlice 1 tblNoName.rows rfl
      (by decide) (by decide)
  exact ⟨resp, s', rows, h1, h4, h5⟩

/-- C4: registering an already-taken username fails with
`400 "Username already exists"` and writes nothing — the user table is
unchanged, so the row count for that username is still exactly one; with
a free username but an already-taken email, registration likewise fails
with `400 "Email already exists"` and writes nothing. -/
theorem c4_register_conflict (digest : String → String → String) (s : Sys)
    (u e p : String) (hp : s.pool = some ()) (hf : 0 < s.free) :
    (countUsername s u = 1 →
       (register digest s u e p).1 =
         .error (.http 400 "Username already exists") ∧
       (register digest s u e p).2.data.users = s.data.users ∧
       countUsername (register digest s u e p).2 u = 1) ∧
    (countUsername s u = 0 → 1 ≤ countEmail s e →
       (register digest s u e p).1 =
         .error (.http 400 "Email already exists") ∧
       (register digest s u e p).2.data.users = s.data.users) := by
  have hread := get_user_by_username_spec s u hp hf
  constructor
  · intro hc
    have hne : s.data.users.filter (fun y => y.username == u) ≠ [] := by
      intro hnil
      rw [countUsername, hnil] at hc
      simp at hc
    obtain ⟨x, hx⟩ := List.exists_mem_of_ne_nil _ hne
    have hex : (s.data.users.find? (fun y => y.username == u)).isSome :=
      List.find?_isSome.mpr ⟨x, (List.mem_filter.mp hx).1,
        (List.mem_filter.mp hx).2⟩
    obtain ⟨usr, husr⟩ := Option.isSome_iff_exists.mp hex
    refine ⟨?_, ?_, ?_⟩ <;>
      simp only [register, hread, husr]
    exact hc
  · intro hcu hce
    have hnone : s.data.users.find? (fun y => y.username == u) = none := by
      rw [List.find?_eq_none]
      intro x hx hpx
      have : x ∈ s.data.users.filter (fun y => y.username == u) :=
        List.mem_filter.mpr ⟨hx, hpx⟩
      rw [countUsername, List.length_eq_zero] at hcu
      rw [hcu] at this
      exact absurd this (List.not_mem_nil x)
    have hnee : s.data.users.filter (fun y => y.email == e) ≠ [] := by
      intro hnil
      rw [countEmail, hnil] at hce
      simp at hce
    obtain ⟨x, hx⟩ := List.exists_mem_of_ne_nil _ hnee
    have hex : (s.data.users.find? (fun y => y.email == e)).isSome :=
      List.find?_isSome.mpr ⟨x, (List.mem_filter.mp hx).1,
        (List.mem_filter.mp hx).2⟩
    obtain ⟨usr, husr⟩ := Option.isSome_iff_exists.mp hex
    have hreade := get_user_by_email_spec s e hp hf
    constructor <;>
      simp only [register, hread, hnone, hreade, husr]

/-- C4 witness: re-registering "alice" on the one-user state fails with
400 and leaves her row count at one; registering a new username under
alice's email fails with 400. -/
theorem c4_witness :
    (register demoDigest sysAlice "alice" "new@x.com" "pw").1 =
      .error (.http 400 "Username already exists") ∧
    countUsername
      (register demoDigest sysAlice "alice" "new@x.com" "pw").2 "alice" = 1 ∧
    (register demoDigest sysAlice "bob" "alice@x.com" "pw").1 =
      .error (.http 400 "Email already exists") := by
  obtain ⟨h1, _, h3⟩ :=
    (c4_register_conflict demoDigest sysAlice "alice" "new@x.com" "pw" rfl
      (by decide)).1 (by decide)
  obtain ⟨h4, _⟩ :=
    (c4_register_conflict demoDigest sysAlice "bob" "alice@x.com" "pw" rfl
      (by decide)).2 (by decide) (by decide)
  exact ⟨h1, h3, h4⟩

/-- C9: the history read returns, without touching the state, exactly the
stored prediction records whose `user_id` is the requesting user's id —
every returned row belongs to the user, every stored row of the user is
returned (as a permutation of the filtered store, so with multiplicity),
never a record of another user — as one finite materialized list sorted
newest first by `created_at`. -/
theorem c9_history_isolation (s : Sys) (uid : Nat)
    (hp : s.pool = some ()) (hf : 0 < s.free) :
    ∃ rows : List PredRow,
      get_user_predictions s uid = (.ok rows, s) ∧
      (∀ r ∈ rows, r.user_id = uid) ∧
      (∀ r ∈ s.data.predictions, r.user_id = uid → r ∈ rows) ∧
      List.Perm rows (s.data.predictions.filter (fun r => r.user_id == uid)) ∧
      List.Sorted newestFirst rows := by
  refine ⟨List.insertionSort newestFirst
      (s.data.predictions.filter (fun r => r.user_id == uid)),
    ?_, ?_, ?_, List.perm_insertionSort newestFirst _,
    List.sorted_insertionSort newestFirst _⟩
  · unfold get_user_predictions
    exact get_db_read (fun d => List.insertionSort newestFirst
      (d.predictions.filter (fun r => r.user_id == uid))) s hp hf
  · intro r hr
    have hr2 : r ∈ s.data.predictions.filter (fun x => x.user_id == uid) :=
      (List.perm_insertionSort newestFirst _).mem_iff.mp hr
    have := (List.mem_filter.mp hr2).2
    simpa using this
  · intro r hr hu
    apply (List.perm_insertionSort newestFirst _).mem_iff.mpr
    exact List.mem_filter.mpr ⟨hr, by simp [hu]⟩

/-- C9 witness: on a store holding rows of users 1 and 2, user 1's
history contains only user-1 rows, sorted newest first. -/
theorem c9_witness :
    ∃ rows : List PredRow,
      get_user_predictions sysHist 1 = (.ok rows, sysHist) ∧
      (∀ r ∈ rows, r.user_id = 1) ∧
      List.Sorted newestFirst rows := by
  obtain ⟨rows, h1, h2, _, _, h5⟩ := c9_history_isolation sysHist 1 rfl
    (by decide)
  exact ⟨rows, h1, h2, h5⟩

/-- C10: login failure is indistinguishable as to its cause: for a
username with no stored user and for a stored user whose password check
fails, login produces the very same `401 "Invalid credentials"` response,
so a caller cannot use login to learn whether a username is registered. -/
theorem c10_login_indistinguishable (digest : String → String → String)
    (s1 s2 : Sys) (u1 p1 u2 p2 : String)
    (h1p : s1.pool = some ()) (h1f : 0 < s1.free)
    (h2p : s2.pool = some ()) (h2f : 0 < s2.free)
    (h1 : s1.data.users.find? (fun x => x.username == u1) = none)
    (usr : UserRow)
    (h2 : s2.data.users.find? (fun x => x.username == u2) = some usr)
    (h2pw : verify_password digest p2 usr.hashed_password = .ok false) :
    (login digest s1 u1 p1).1 = .error (.http 401 "Invalid credentials") ∧
    (login digest s2 u2 p2).1 = .error (.http 401 "Invalid credentials") ∧
    (login digest s1 u1 p1).1 = (login digest s2 u2 p2).1 := by
  have hr1 := get_user_by_username_spec s1 u1 h1p h1f
  have hr2 := get_user_by_username_spec s2 u2 h2p h2f
  have e1 : (login digest s1 u1 p1).1 =
      .error (.http 401 "Invalid credentials") := by
    simp only [login, hr1, h1]
  have e2 : (login digest s2 u2 p2).1 =
      .error (.http 401 "Invalid credentials") := by
    simp only [login, hr2, h2, h2pw]
  exact ⟨e1, e2, e1.trans e2.symm⟩

/-- C10 witness: unknown user "mallory" and known user "alice" with a
wrong password receive the identical 401 response. -/
theorem c10_witness :
    (login demoDigest sysAlice "mallory" "pw").1 =
      .error (.http 401 "Invalid credentials") ∧
    (login demoDigest sysAlice "alice" "wrong").1 =
      .error (.http 401 "Invalid credentials") ∧
    (login demoDigest sysAlice "mallory" "pw").1 =
      (login demoDigest sysAlice "alice" "wrong").1 :=
  c10_login_indistinguishable demoDigest sysAlice sysAlice "mallory" "pw"
    "alice" "wrong" rfl (by decide) rfl (by decide) (by decide)
    ⟨1, "alice", "alice@x.com", hashpw demoDigest "pw123" "salt0", 0⟩
    (by decide) (by decide)

end LoanService
